import Mathlib

/-!
Verification of `src/Puyolib/AssetManager.cpp` (namespace `ppvs`).

The asset manager keeps an ordered registry (`std::list<AssetBundle*> m_bundleList`)
of bundles, two collaborator pointers (`Frontend* m_front`, `DebugLog* m_debug`)
and a boolean `activated` flag.  Bundles, the front-end and the debug log are
external collaborators: only the capability surface the manager consumes is
modelled here.  Pointers are modelled as `Option` (with `none` for `nullptr`);
pointer identity of bundles is modelled by a `bid : Nat` field (a memory
address); enum tokens (`ImageToken`, `SoundEffectToken`, `AnimationToken`,
`PuyoCharacter`) are opaque and modelled as `Nat`.  Calls to
`m_debug->log(msg, type)` are modelled as an emitted trace of `LogEntry`
values returned next to each result.  The undefined behaviour the manager
itself can trigger (calling `target->error()` on a null `FeSound*` in
`loadSound`, and calling `m_debug->log` with no null check on the failure
path of every resolver) is modelled with `Except Unit`, where
`Except.error ()` stands for the null-pointer dereference.
-/

namespace ppvs

/-- The two severities `AssetManager.cpp` uses of the `DebugMessageType` enum. -/
inductive DebugMessageType where
  | Debug : DebugMessageType
  | Error : DebugMessageType
deriving DecidableEq

/-- One call to `m_debug->log(msg, type)`. -/
structure LogEntry where
  msg : String
  ty : DebugMessageType
deriving DecidableEq

/-- Modelled from the spec: an `FeImage*` asset handle, an external
collaborator of which the manager consumes only null-ness and `error()`.
`iid` models the pointer address, so a handle value determines which
bundle produced it. -/
structure FeImage where
  iid : Nat
  error : Bool
deriving DecidableEq

/-- Modelled from the spec: an `FeSound*` asset handle, as `FeImage`. -/
structure FeSound where
  sid : Nat
  error : Bool
deriving DecidableEq

/-- Modelled from the spec: the bundle capability surface consumed by
`AssetManager` (the `AssetBundle` implementation is outside the excerpt).
`bid` models the pointer address of the bundle object, `valid` and `active`
its two state flags, `mDebug` its public `m_debug` field, and the remaining
fields its query methods, as arbitrary functions of the request. -/
structure AssetBundle where
  bid : Nat
  valid : Bool
  active : Bool
  mDebug : Option Nat
  loadImage : Nat → String → Option FeImage
  loadCharImage : Nat → Nat → Option FeImage
  loadSound : Nat → String → Option FeSound
  loadCharSound : Nat → Nat → Option FeSound
  getCharAnimationsFolder : Nat → String
  getAnimationFolder : Nat → String → String
  listPuyoSkins : List String
  listBackgrounds : List String
  listCharacterSkins : List String
  listSfx : List String

/-- Modelled from the spec: the state-changing bundle methods
(`init(frontend)`, `reload()`, `reload(frontend)`, `clone()`), which the
manager delegates to the bundle.  They are kept abstract as arbitrary
transition functions, so every theorem below holds for every possible
bundle implementation. -/
structure BundleDyn where
  initF : AssetBundle → Option Nat → AssetBundle
  reload0 : AssetBundle → AssetBundle
  reloadF : AssetBundle → Option Nat → AssetBundle
  cloneF : AssetBundle → AssetBundle

/-- The manager state: `m_bundleList`, the two collaborator pointers and the
`activated` flag of class `AssetManager`. -/
structure AssetManager where
  m_bundleList : List AssetBundle
  m_front : Option Nat
  m_debug : Option Nat
  activated : Bool

namespace AssetManager

/-- `AssetManager::reloadBundles`: reloads every bundle with the stored
front-end and counts the iterations; the C++ function returns the `int`
counter converted to `bool`.  The count is returned here; the boolean the
caller sees is `reloadBundlesRet`. -/
def reloadBundles (dyn : BundleDyn) (m : AssetManager) : AssetManager × Nat :=
  ({ m with m_bundleList := m.m_bundleList.map (fun b => dyn.reloadF b m.m_front) },
   m.m_bundleList.length)

/-- The `bool` value `AssetManager::reloadBundles` actually returns:
`number_of_loaded` implicitly converted to `bool`, i.e. true iff non-zero. -/
def reloadBundlesRet (dyn : BundleDyn) (m : AssetManager) : Bool :=
  (reloadBundles dyn m).2 != 0

/-- `AssetManager::activate`: rebinds `m_front` and `m_debug`, calls
`reloadBundles()`, then sets `activated` to true iff both pointers are
non-null. -/
def activate (dyn : BundleDyn) (m : AssetManager) (fe dbg : Option Nat) : AssetManager :=
  let m1 : AssetManager := { m with m_front := fe, m_debug := dbg }
  let m2 := (reloadBundles dyn m1).1
  { m2 with activated := fe.isSome && dbg.isSome }

/-- The state of the bundle argument after the first three statements of
`AssetManager::loadBundle`: `bundle->init(m_front); bundle->reload();
bundle->m_debug = m_debug;`. -/
def prepBundle (dyn : BundleDyn) (m : AssetManager) (bundle : AssetBundle) : AssetBundle :=
  { dyn.reload0 (dyn.initF bundle m.m_front) with mDebug := m.m_debug }

/-- `AssetManager::loadBundle(bundle, priority)`: after the init/reload/debug
sequence, appends the bundle iff `bundle->valid`, and returns that flag.
The `priority` parameter is unused in the source (`TODO: implement
priority`). -/
def loadBundle (dyn : BundleDyn) (m : AssetManager) (bundle : AssetBundle)
    (_priority : Int) : AssetManager × Bool :=
  let b := prepBundle dyn m bundle
  if b.valid then
    ({ m with m_bundleList := m.m_bundleList ++ [b] }, b.valid)
  else
    (m, b.valid)

/-- `AssetManager::deleteBundle`: `m_bundleList.remove(bundle)` removes every
list node holding this pointer (pointer equality, modelled by `bid`), then
`delete bundle`, then `return false`. -/
def deleteBundle (m : AssetManager) (bundle : AssetBundle) : AssetManager × Bool :=
  ({ m with m_bundleList := m.m_bundleList.filter (fun b => b.bid != bundle.bid) }, false)

/-- `AssetManager::unloadAll`: returns true at once on an empty registry;
otherwise erases every tombstoned (`!active`) bundle in place and returns
false. -/
def unloadAll (m : AssetManager) : AssetManager × Bool :=
  if m.m_bundleList.isEmpty then
    (m, true)
  else
    ({ m with m_bundleList := m.m_bundleList.filter (fun b => b.active) }, false)

/-- The loop condition of the two `loadImage` overloads:
`target != nullptr && !target->error()`. -/
def imgClean : Option FeImage → Bool
  | none => false
  | some i => !i.error

/-- The logging condition of the two `loadImage` overloads:
`target == nullptr || target->error()` (short-circuit, so no dereference on
null). -/
def imgBad : Option FeImage → Bool
  | none => true
  | some i => i.error

/-- The resolution loop shared by both `loadImage` overloads: `target` starts
as `nullptr`, each iteration overwrites it with the bundle result and breaks
on a clean (non-null, non-error) result; on exhaustion the last assigned
value (possibly an errored, non-null handle) is kept. -/
def imageGo (f : AssetBundle → Option FeImage) :
    List AssetBundle → Option FeImage → Option FeImage
  | [], target => target
  | b :: rest, _ =>
    let t := f b
    if imgClean t then t else imageGo f rest t

/-- The failure-path call `m_debug->log(msg, DebugMessageType::Error)` made
by every resolver: the `m_debug` pointer is dereferenced with NO null check
(unlike the constructor and destructor, which do check it), so a null
`m_debug` crashes (`Except.error ()`); otherwise one entry is emitted to
the log. -/
def debugLog (m : AssetManager) (e : LogEntry) : Except Unit (List LogEntry) :=
  match m.m_debug with
  | none => Except.error ()
  | some _ => Except.ok [e]

/-- `AssetManager::loadImage(token, custom)`: first-clean-wins scan over the
registry; on a null or errored final candidate, one error entry is sent to
the debug log through the unchecked `m_debug` pointer (a crash when that
pointer is null).  The second component is the trace of log calls made. -/
def loadImage (m : AssetManager) (token : Nat) (custom : String) :
    Except Unit (Option FeImage × List LogEntry) :=
  let target := imageGo (fun b => b.loadImage token custom) m.m_bundleList none
  if imgBad target then
    match debugLog m ⟨"Error loading image token " ++ toString token ++ " custom " ++
        custom, DebugMessageType.Error⟩ with
    | Except.error () => Except.error ()
    | Except.ok logs => Except.ok (target, logs)
  else
    Except.ok (target, [])

/-- `AssetManager::loadImage(token, character)`: as the custom-string
overload but delegating to `bundle->loadCharImage`. -/
def loadCharImage (m : AssetManager) (token : Nat) (character : Nat) :
    Except Unit (Option FeImage × List LogEntry) :=
  let target := imageGo (fun b => b.loadCharImage token character) m.m_bundleList none
  if imgBad target then
    match debugLog m ⟨"Error loading image token " ++ toString token ++ " character " ++
        toString character, DebugMessageType.Error⟩ with
    | Except.error () => Except.error ()
    | Except.ok logs => Except.ok (target, logs)
  else
    Except.ok (target, [])

/-- The loop body condition of the two `loadSound` overloads is
`!target->error()` with NO null check, so a null bundle result is
dereferenced: modelled as `Except.error ()`.  On an errored (non-null)
result the candidate is reset to null and the scan continues; on exhaustion
the candidate is null. -/
def soundGo (f : AssetBundle → Option FeSound) :
    List AssetBundle → Except Unit (Option FeSound)
  | [] => Except.ok none
  | b :: rest =>
    match f b with
    | none => Except.error ()
    | some s => if !s.error then Except.ok (some s) else soundGo f rest

/-- The logging condition of the two `loadSound` overloads:
`target == nullptr || target->error()` (short-circuit). -/
def sndBad : Option FeSound → Bool
  | none => true
  | some s => s.error

/-- `AssetManager::loadSound(token, custom)`: first-clean-wins scan; a null
bundle result crashes (`Except.error ()`); on a failed scan one error entry
is logged through the unchecked `m_debug` pointer (a crash when it is null)
and null returned. -/
def loadSound (m : AssetManager) (token : Nat) (custom : String) :
    Except Unit (Option FeSound × List LogEntry) :=
  match soundGo (fun b => b.loadSound token custom) m.m_bundleList with
  | Except.error () => Except.error ()
  | Except.ok target =>
    if sndBad target then
      match debugLog m ⟨"Error loading sound token " ++ toString token ++ " custom " ++
          custom, DebugMessageType.Error⟩ with
      | Except.error () => Except.error ()
      | Except.ok logs => Except.ok (target, logs)
    else
      Except.ok (target, [])

/-- `AssetManager::loadSound(token, character)`: as the custom-string
overload but delegating to `bundle->loadCharSound`. -/
def loadCharSound (m : AssetManager) (token : Nat) (character : Nat) :
    Except Unit (Option FeSound × List LogEntry) :=
  match soundGo (fun b => b.loadCharSound token character) m.m_bundleList with
  | Except.error () => Except.error ()
  | Except.ok target =>
    if sndBad target then
      match debugLog m ⟨"Error loading sound token " ++ toString token ++ " character " ++
          toString character, DebugMessageType.Error⟩ with
      | Except.error () => Except.error ()
      | Except.ok logs => Except.ok (target, logs)
    else
      Except.ok (target, [])

/-- The resolution loop shared by both `getAnimationFolder` overloads:
`target` starts empty, each iteration overwrites it and breaks on a
non-empty result. -/
def folderGo (f : AssetBundle → String) : List AssetBundle → String → String
  | [], target => target
  | b :: rest, _ =>
    let t := f b
    if t.isEmpty then folderGo f rest t else t

/-- `AssetManager::getAnimationFolder(character)`: first non-empty
`getCharAnimationsFolder` result wins; one error entry is logged through
the unchecked `m_debug` pointer (a crash when it is null) when the final
candidate is empty. -/
def getAnimationFolderChar (m : AssetManager) (character : Nat) :
    Except Unit (String × List LogEntry) :=
  let target := folderGo (fun b => b.getCharAnimationsFolder character) m.m_bundleList ""
  if target.isEmpty then
    match debugLog m ⟨"Error loading animation script character " ++ toString character,
        DebugMessageType.Error⟩ with
    | Except.error () => Except.error ()
    | Except.ok logs => Except.ok (target, logs)
  else
    Except.ok (target, [])

/-- `AssetManager::getAnimationFolder(token, script_name)`: first non-empty
`bundle->getAnimationFolder` result wins; one error entry is logged through
the unchecked `m_debug` pointer (a crash when it is null) when the final
candidate is empty. -/
def getAnimationFolderTok (m : AssetManager) (token : Nat) (script_name : String) :
    Except Unit (String × List LogEntry) :=
  let target := folderGo (fun b => b.getAnimationFolder token script_name) m.m_bundleList ""
  if target.isEmpty then
    match debugLog m ⟨"Error loading animation script token " ++ toString token,
        DebugMessageType.Error⟩ with
    | Except.error () => Except.error ()
    | Except.ok logs => Except.ok (target, logs)
  else
    Except.ok (target, [])

/-- `AssetManager::listPuyoSkins`: inserts every name of every bundle into
one `std::set<std::string>` (deduplicated, order-free), modelled as a
`Finset`. -/
def listPuyoSkins (m : AssetManager) : Finset String :=
  m.m_bundleList.foldl (fun result b => result ∪ b.listPuyoSkins.toFinset) ∅

/-- `AssetManager::listBackgrounds`: as `listPuyoSkins`. -/
def listBackgrounds (m : AssetManager) : Finset String :=
  m.m_bundleList.foldl (fun result b => result ∪ b.listBackgrounds.toFinset) ∅

/-- `AssetManager::listCharacterSkins`: as `listPuyoSkins`. -/
def listCharacterSkins (m : AssetManager) : Finset String :=
  m.m_bundleList.foldl (fun result b => result ∪ b.listCharacterSkins.toFinset) ∅

/-- `AssetManager::listSfx`: as `listPuyoSkins`. -/
def listSfx (m : AssetManager) : Finset String :=
  m.m_bundleList.foldl (fun result b => result ∪ b.listSfx.toFinset) ∅

/-- Modelled from the spec: the default-constructed `AssetManager()` (its
header with the member initializers is outside the excerpt); per the data
model, the registry starts empty, both collaborator pointers null and the
manager not activated. -/
def mkDefault : AssetManager :=
  { m_bundleList := [], m_front := none, m_debug := none, activated := false }

/-- `AssetManager::clone`: builds a default manager, runs
`current->loadBundle(bundle->clone())` for every registry bundle in order,
then `current->activate(m_front, m_debug)`, and returns the new manager. -/
def clone (dyn : BundleDyn) (m : AssetManager) : AssetManager :=
  let current := m.m_bundleList.foldl
    (fun cur b => (loadBundle dyn cur (dyn.cloneF b) 0).1) mkDefault
  activate dyn current m.m_front m.m_debug

end AssetManager

/-- Spec-side predicate: a clean sound result, non-null and non-error
(the conjunction of the null checks the sound lookups omit and the error
check they make). -/
def sndClean : Option FeSound → Bool
  | none => false
  | some s => !s.error

/-- Spec-side predicate: a non-null but errored sound result (the only
failing shape the sound loop survives; a null result is dereferenced). -/
def sndErrored : Option FeSound → Bool
  | none => false
  | some s => s.error

namespace AssetManager

theorem imageGo_first_clean (f : AssetBundle → Option FeImage) (pre : List AssetBundle)
    (bk : AssetBundle) (post : List AssetBundle) (t0 : Option FeImage)
    (hpre : ∀ b ∈ pre, imgClean (f b) = false) (hk : imgClean (f bk) = true) :
    imageGo f (pre ++ bk :: post) t0 = f bk := by
  induction pre generalizing t0 with
  | nil => simp [imageGo, hk]
  | cons a rest ih =>
    have ha : imgClean (f a) = false := hpre a (by simp)
    simpa [imageGo, ha] using ih (f a) (fun b hb => hpre b (by simp [hb]))

theorem imageGo_all_fail (f : AssetBundle → Option FeImage) (l : List AssetBundle)
    (t0 : Option FeImage) (h : ∀ b ∈ l, imgClean (f b) = false) :
    imageGo f l t0 = (l.map f).getLastD t0 := by
  induction l generalizing t0 with
  | nil => simp [imageGo]
  | cons a rest ih =>
    have ha : imgClean (f a) = false := h a (by simp)
    have step : imageGo f (a :: rest) t0 = imageGo f rest (f a) := by
      simp [imageGo, ha]
    rw [step, List.map_cons, List.getLastD_cons]
    exact ih (f a) (fun b hb => h b (by simp [hb]))

theorem imgBad_eq_not_clean (t : Option FeImage) : imgBad t = !imgClean t := by
  cases t <;> simp [imgBad, imgClean]

theorem folderGo_first (f : AssetBundle → String) (pre : List AssetBundle)
    (bk : AssetBundle) (post : List AssetBundle) (t0 : String)
    (hpre : ∀ b ∈ pre, (f b).isEmpty = true) (hk : (f bk).isEmpty = false) :
    folderGo f (pre ++ bk :: post) t0 = f bk := by
  induction pre generalizing t0 with
  | nil => simp [folderGo, hk]
  | cons a rest ih =>
    have ha : (f a).isEmpty = true := hpre a (by simp)
    simpa [folderGo, ha] using ih (f a) (fun b hb => hpre b (by simp [hb]))

theorem folderGo_all_empty (f : AssetBundle → String) (l : List AssetBundle)
    (t0 : String) (h : ∀ b ∈ l, (f b).isEmpty = true) (h0 : t0.isEmpty = true) :
    folderGo f l t0 = "" := by
  induction l generalizing t0 with
  | nil =>
    simp only [folderGo]
    exact (String.isEmpty_iff t0).mp h0
  | cons a rest ih =>
    have ha : (f a).isEmpty = true := h a (by simp)
    simpa [folderGo, ha] using ih (f a) (fun b hb => h b (by simp [hb])) ha

theorem soundGo_first (f : AssetBundle → Option FeSound) (pre : List AssetBundle)
    (bk : AssetBundle) (post : List AssetBundle)
    (hpre : ∀ b ∈ pre, sndErrored (f b) = true) (hk : sndClean (f bk) = true) :
    soundGo f (pre ++ bk :: post) = Except.ok (f bk) := by
  induction pre with
  | nil =>
    cases hfk : f bk with
    | none => rw [hfk] at hk; simp [sndClean] at hk
    | some s =>
      rw [hfk] at hk
      simp only [sndClean] at hk
      simp [soundGo, hfk, hk]
  | cons a rest ih =>
    have ha : sndErrored (f a) = true := hpre a (by simp)
    cases hfa : f a with
    | none => rw [hfa] at ha; simp [sndErrored] at ha
    | some s =>
      rw [hfa] at ha
      simp only [sndErrored] at ha
      simpa [soundGo, hfa, ha] using ih (fun b hb => hpre b (by simp [hb]))

theorem soundGo_all_errored (f : AssetBundle → Option FeSound) (l : List AssetBundle)
    (h : ∀ b ∈ l, sndErrored (f b) = true) :
    soundGo f l = Except.ok none := by
  induction l with
  | nil => rfl
  | cons a rest ih =>
    have ha : sndErrored (f a) = true := h a (by simp)
    cases hfa : f a with
    | none => rw [hfa] at ha; simp [sndErrored] at ha
    | some s =>
      rw [hfa] at ha
      simp only [sndErrored] at ha
      simpa [soundGo, hfa, ha] using ih (fun b hb => h b (by simp [hb]))

theorem soundGo_isOk_of_all_some (f : AssetBundle → Option FeSound) (l : List AssetBundle)
    (h : ∀ b ∈ l, (f b).isSome = true) :
    ∃ t, soundGo f l = Except.ok t := by
  induction l with
  | nil => exact ⟨none, rfl⟩
  | cons a rest ih =>
    cases hfa : f a with
    | none =>
      have := h a (by simp)
      rw [hfa] at this
      simp at this
    | some s =>
      by_cases hs : s.error
      · simpa [soundGo, hfa, hs] using ih (fun b hb => h b (by simp [hb]))
      · exact ⟨some s, by simp [soundGo, hfa, hs]⟩

theorem mem_foldl_union (g : AssetBundle → List String) (l : List AssetBundle)
    (acc : Finset String) (s : String) :
    (s ∈ l.foldl (fun result b => result ∪ (g b).toFinset) acc) ↔
      (s ∈ acc ∨ ∃ b ∈ l, s ∈ g b) := by
  induction l generalizing acc with
  | nil => simp
  | cons a rest ih =>
    simp only [List.foldl_cons, ih, Finset.mem_union, List.mem_toFinset, List.mem_cons]
    constructor
    · rintro ((h | h) | ⟨b, hb, hs⟩)
      · exact Or.inl h
      · exact Or.inr ⟨a, Or.inl rfl, h⟩
      · exact Or.inr ⟨b, Or.inr hb, hs⟩
    · rintro (h | ⟨b, (rfl | hb), hs⟩)
      · exact Or.inl (Or.inl h)
      · exact Or.inl (Or.inr hs)
      · exact Or.inr ⟨b, hb, hs⟩

theorem loadBundle_collaborators (dyn : BundleDyn) (m : AssetManager)
    (bundle : AssetBundle) (p : Int) :
    (loadBundle dyn m bundle p).1.m_front = m.m_front ∧
      (loadBundle dyn m bundle p).1.m_debug = m.m_debug ∧
      (loadBundle dyn m bundle p).1.activated = m.activated := by
  by_cases hv : (prepBundle dyn m bundle).valid = true <;>
    simp [loadBundle, hv]

theorem prepBundle_congr (dyn : BundleDyn) (m m' : AssetManager) (bundle : AssetBundle)
    (hf : m.m_front = m'.m_front) (hd : m.m_debug = m'.m_debug) :
    prepBundle dyn m bundle = prepBundle dyn m' bundle := by
  simp [prepBundle, hf, hd]

theorem imageGo_all_fail_bad (f : AssetBundle → Option FeImage) (l : List AssetBundle)
    (t0 : Option FeImage) (h : ∀ b ∈ l, imgClean (f b) = false)
    (h0 : imgBad t0 = true) : imgBad (imageGo f l t0) = true := by
  induction l generalizing t0 with
  | nil => simpa [imageGo] using h0
  | cons a rest ih =>
    have ha : imgClean (f a) = false := h a (by simp)
    have step : imageGo f (a :: rest) t0 = imageGo f rest (f a) := by
      simp [imageGo, ha]
    rw [step]
    exact ih (f a) (fun b hb => h b (by simp [hb]))
      (by rw [imgBad_eq_not_clean, ha]; rfl)

theorem sndBad_eq_false_of_clean (t : Option FeSound) (h : sndClean t = true) :
    sndBad t = false := by
  cases t <;> simp_all [sndClean, sndBad]

end AssetManager

/-- A concrete bundle with constant query results, used for the concrete
evaluations below. -/
def sampleBundle (i : Nat) (img : Option FeImage) (snd : Option FeSound)
    (folder : String) : AssetBundle where
  bid := i
  valid := true
  active := true
  mDebug := none
  loadImage := fun _ _ => img
  loadCharImage := fun _ _ => img
  loadSound := fun _ _ => snd
  loadCharSound := fun _ _ => snd
  getCharAnimationsFolder := fun _ => folder
  getAnimationFolder := fun _ _ => folder
  listPuyoSkins := []
  listBackgrounds := []
  listCharacterSkins := []
  listSfx := []

/-- A bundle whose handles are non-null but errored and whose folders are
empty: the soft-failure shape for every lookup. -/
def bundleErrored : AssetBundle := sampleBundle 0 (some ⟨10, true⟩) (some ⟨10, true⟩) ""

/-- A bundle whose results are all clean successes. -/
def bundleGood : AssetBundle := sampleBundle 1 (some ⟨11, false⟩) (some ⟨11, false⟩) "anims"

/-- A bundle that returns null handles (and empty folders). -/
def bundleNull : AssetBundle := sampleBundle 2 none none ""

/-- A registry holding a failing bundle before a clean one. -/
def mgrErroredThenGood : AssetManager :=
  { m_bundleList := [bundleErrored, bundleGood], m_front := some 0, m_debug := some 0,
    activated := true }

/-- A registry holding a null-returning bundle before a clean one. -/
def mgrNullThenGood : AssetManager :=
  { m_bundleList := [bundleNull, bundleGood], m_front := some 0, m_debug := some 0,
    activated := true }

/-- A registry holding only the errored bundle. -/
def mgrOnlyErrored : AssetManager :=
  { m_bundleList := [bundleErrored], m_front := some 0, m_debug := some 0,
    activated := true }

/-- A registry holding only the null-returning bundle. -/
def mgrOnlyNull : AssetManager :=
  { m_bundleList := [bundleNull], m_front := some 0, m_debug := some 0,
    activated := true }

/-- Claim C1 (amended): for every lookup, when the registry splits as
`pre ++ bk :: post` and bundle `bk` is the first with a clean result
(non-null and non-error for images and sounds, non-empty for folders), the
lookup returns exactly the result of `bk` with no error logged, and the
bundles of `post` are never consulted (the result does not depend on
`post`) — with the amendment that for the two sound overloads the bundles
of `pre` must have returned non-null (errored) handles, since a null sound
handle crashes the lookup before it can reach `bk`. -/
theorem claim_C1_first_clean_wins (m : AssetManager) (pre post : List AssetBundle)
    (bk : AssetBundle) (token character : Nat) (custom : String)
    (hsplit : m.m_bundleList = pre ++ bk :: post) :
    ((∀ b ∈ pre, AssetManager.imgClean (b.loadImage token custom) = false) →
      AssetManager.imgClean (bk.loadImage token custom) = true →
      AssetManager.loadImage m token custom =
        Except.ok (bk.loadImage token custom, [])) ∧
    ((∀ b ∈ pre, AssetManager.imgClean (b.loadCharImage token character) = false) →
      AssetManager.imgClean (bk.loadCharImage token character) = true →
      AssetManager.loadCharImage m token character =
        Except.ok (bk.loadCharImage token character, [])) ∧
    ((∀ b ∈ pre, sndErrored (b.loadSound token custom) = true) →
      sndClean (bk.loadSound token custom) = true →
      AssetManager.loadSound m token custom = Except.ok (bk.loadSound token custom, [])) ∧
    ((∀ b ∈ pre, sndErrored (b.loadCharSound token character) = true) →
      sndClean (bk.loadCharSound token character) = true →
      AssetManager.loadCharSound m token character =
        Except.ok (bk.loadCharSound token character, [])) ∧
    ((∀ b ∈ pre, (b.getCharAnimationsFolder character).isEmpty = true) →
      (bk.getCharAnimationsFolder character).isEmpty = false →
      AssetManager.getAnimationFolderChar m character =
        Except.ok (bk.getCharAnimationsFolder character, [])) ∧
    ((∀ b ∈ pre, (b.getAnimationFolder token custom).isEmpty = true) →
      (bk.getAnimationFolder token custom).isEmpty = false →
      AssetManager.getAnimationFolderTok m token custom =
        Except.ok (bk.getAnimationFolder token custom, [])) := by
  refine ⟨fun hpre hk => ?_, fun hpre hk => ?_, fun hpre hk => ?_,
    fun hpre hk => ?_, fun hpre hk => ?_, fun hpre hk => ?_⟩
  · rw [AssetManager.loadImage, hsplit,
      AssetManager.imageGo_first_clean _ pre bk post none hpre hk,
      AssetManager.imgBad_eq_not_clean, hk]
    rfl
  · rw [AssetManager.loadCharImage, hsplit,
      AssetManager.imageGo_first_clean _ pre bk post none hpre hk,
      AssetManager.imgBad_eq_not_clean, hk]
    rfl
  · rw [AssetManager.loadSound, hsplit,
      AssetManager.soundGo_first _ pre bk post hpre hk]
    simp [AssetManager.sndBad_eq_false_of_clean _ hk]
  · rw [AssetManager.loadCharSound, hsplit,
      AssetManager.soundGo_first _ pre bk post hpre hk]
    simp [AssetManager.sndBad_eq_false_of_clean _ hk]
  · rw [AssetManager.getAnimationFolderChar, hsplit,
      AssetManager.folderGo_first _ pre bk post "" hpre hk, hk]
    rfl
  · rw [AssetManager.getAnimationFolderTok, hsplit,
      AssetManager.folderGo_first _ pre bk post "" hpre hk, hk]
    rfl

/-- Claim C1 counterexample for the claim as stated: in the registry
`[bundleNull, bundleGood]`, bundle 1 is the first bundle with a clean sound
result (bundle 0 returns a null handle, not a clean success), yet
`loadSound` does not return the result of bundle 1: it crashes on the
null handle of bundle 0. -/
theorem claim_C1_counterexample :
    (sndClean (bundleNull.loadSound 3 "x") = false) ∧
    (sndClean (bundleGood.loadSound 3 "x") = true) ∧
    (AssetManager.loadSound mgrNullThenGood 3 "x" = Except.error ()) ∧
    (AssetManager.loadSound mgrNullThenGood 3 "x" ≠
      Except.ok (bundleGood.loadSound 3 "x", [])) := by
  refine ⟨rfl, rfl, rfl, ?_⟩
  intro h
  have h2 : (Except.error () : Except Unit (Option FeSound × List LogEntry)) =
      Except.ok (bundleGood.loadSound 3 "x", []) := h
  exact Except.noConfusion h2

/-- Claim C1 witness: concrete two-bundle registry where the second bundle
is the first clean supplier; the image, sound and folder lookups all return
its result with no log entry. -/
theorem claim_C1_witness :
    (AssetManager.loadImage mgrErroredThenGood 3 "x" =
      Except.ok (some ⟨11, false⟩, [])) ∧
    (AssetManager.loadSound mgrErroredThenGood 3 "x" =
      Except.ok (some ⟨11, false⟩, [])) ∧
    (AssetManager.getAnimationFolderChar mgrErroredThenGood 4 =
      Except.ok ("anims", [])) := by
  have h := claim_C1_first_clean_wins mgrErroredThenGood [bundleErrored] [] bundleGood
    3 4 "x" rfl
  exact ⟨h.1 (fun b hb => by rw [List.mem_singleton] at hb; subst hb; rfl) rfl,
    h.2.2.1 (fun b hb => by rw [List.mem_singleton] at hb; subst hb; rfl) rfl,
    h.2.2.2.2.1 (fun b hb => by rw [List.mem_singleton] at hb; subst hb; rfl) rfl⟩

/-- A registry holding the errored bundle but a NULL Debug-Log reference:
any failing lookup on it reaches the unchecked `m_debug->log` call. -/
def mgrErrNoDebug : AssetManager :=
  { m_bundleList := [bundleErrored], m_front := some 0, m_debug := none,
    activated := false }

/-- Claim C2 (amended): when every registry bundle fails a request AND the
Debug-Log reference is non-null, exactly one error entry is logged and no
error is propagated; the returned value is the empty string for folder
lookups and null for sound lookups (provided every sound handle was
non-null errored, since a null handle crashes instead), but for image
lookups it is the LAST bundle result (null, or the non-null errored handle
of the last bundle), not necessarily null.  With a null Debug-Log the
failing lookup instead dereferences null at the unchecked log call. -/
theorem claim_C2_exhaustion_soft_failure (m : AssetManager) (token character : Nat)
    (custom : String) (hdbg : m.m_debug ≠ none) :
    ((∀ b ∈ m.m_bundleList, AssetManager.imgClean (b.loadImage token custom) = false) →
      AssetManager.loadImage m token custom = Except.ok
        ((m.m_bundleList.map (fun b => b.loadImage token custom)).getLastD none,
         [⟨"Error loading image token " ++ toString token ++ " custom " ++ custom,
           DebugMessageType.Error⟩]) ∧
      AssetManager.imgBad
        ((m.m_bundleList.map (fun b => b.loadImage token custom)).getLastD none) = true) ∧
    ((∀ b ∈ m.m_bundleList, AssetManager.imgClean (b.loadCharImage token character) = false) →
      AssetManager.loadCharImage m token character = Except.ok
        ((m.m_bundleList.map (fun b => b.loadCharImage token character)).getLastD none,
         [⟨"Error loading image token " ++ toString token ++ " character " ++
           toString character, DebugMessageType.Error⟩]) ∧
      AssetManager.imgBad
        ((m.m_bundleList.map (fun b => b.loadCharImage token character)).getLastD none)
        = true) ∧
    ((∀ b ∈ m.m_bundleList, sndErrored (b.loadSound token custom) = true) →
      AssetManager.loadSound m token custom = Except.ok (none,
        [⟨"Error loading sound token " ++ toString token ++ " custom " ++ custom,
          DebugMessageType.Error⟩])) ∧
    ((∀ b ∈ m.m_bundleList, sndErrored (b.loadCharSound token character) = true) →
      AssetManager.loadCharSound m token character = Except.ok (none,
        [⟨"Error loading sound token " ++ toString token ++ " character " ++
          toString character, DebugMessageType.Error⟩])) ∧
    ((∀ b ∈ m.m_bundleList, (b.getCharAnimationsFolder character).isEmpty = true) →
      AssetManager.getAnimationFolderChar m character = Except.ok ("",
        [⟨"Error loading animation script character " ++ toString character,
          DebugMessageType.Error⟩])) ∧
    ((∀ b ∈ m.m_bundleList, (b.getAnimationFolder token custom).isEmpty = true) →
      AssetManager.getAnimationFolderTok m token custom = Except.ok ("",
        [⟨"Error loading animation script token " ++ toString token,
          DebugMessageType.Error⟩])) := by
  obtain ⟨d, hd⟩ := Option.ne_none_iff_exists'.mp hdbg
  refine ⟨fun h => ?_, fun h => ?_, fun h => ?_, fun h => ?_, fun h => ?_, fun h => ?_⟩
  · have htgt := AssetManager.imageGo_all_fail _ m.m_bundleList none h
    have hbad := AssetManager.imageGo_all_fail_bad _ m.m_bundleList none h rfl
    refine ⟨?_, by rw [← htgt]; exact hbad⟩
    rw [AssetManager.loadImage, hbad, htgt, AssetManager.debugLog, hd]
    rfl
  · have htgt := AssetManager.imageGo_all_fail _ m.m_bundleList none h
    have hbad := AssetManager.imageGo_all_fail_bad _ m.m_bundleList none h rfl
    refine ⟨?_, by rw [← htgt]; exact hbad⟩
    rw [AssetManager.loadCharImage, hbad, htgt, AssetManager.debugLog, hd]
    rfl
  · rw [AssetManager.loadSound, AssetManager.soundGo_all_errored _ m.m_bundleList h]
    simp [AssetManager.sndBad, AssetManager.debugLog, hd]
  · rw [AssetManager.loadCharSound, AssetManager.soundGo_all_errored _ m.m_bundleList h]
    simp [AssetManager.sndBad, AssetManager.debugLog, hd]
  · rw [AssetManager.getAnimationFolderChar,
      AssetManager.folderGo_all_empty _ m.m_bundleList "" h rfl]
    simp [AssetManager.debugLog, hd]
    rfl
  · rw [AssetManager.getAnimationFolderTok,
      AssetManager.folderGo_all_empty _ m.m_bundleList "" h rfl]
    simp [AssetManager.debugLog, hd]
    rfl

/-- Claim C2 counterexample for the claim as stated: with the registry
`[bundleErrored]` every bundle fails the image request and one error entry
is logged, but `loadImage` returns the non-null errored handle of the last
bundle, not null; and on the same registry with a null Debug-Log reference
the lookup does not fail softly at all: it dereferences null at the
unchecked log call. -/
theorem claim_C2_counterexample :
    (AssetManager.imgClean (bundleErrored.loadImage 3 "x") = false) ∧
    (AssetManager.loadImage mgrOnlyErrored 3 "x" = Except.ok (some ⟨10, true⟩,
      [⟨"Error loading image token " ++ toString 3 ++ " custom " ++ "x",
        DebugMessageType.Error⟩])) ∧
    (AssetManager.loadImage mgrOnlyErrored 3 "x" ≠ Except.ok (none,
      [⟨"Error loading image token " ++ toString 3 ++ " custom " ++ "x",
        DebugMessageType.Error⟩])) ∧
    (AssetManager.loadImage mgrErrNoDebug 3 "x" = Except.error ()) := by
  refine ⟨rfl, rfl, ?_, rfl⟩
  intro h
  have h2 := Except.ok.inj h
  have h3 := congrArg Prod.fst h2
  exact Option.noConfusion h3

/-- Claim C2 witness: on a registry whose single bundle fails every request
and whose Debug-Log reference is non-null, the sound lookup returns null
with exactly one log entry and the image lookup returns the errored handle
with exactly one log entry. -/
theorem claim_C2_witness :
    (AssetManager.loadSound mgrOnlyErrored 3 "x" = Except.ok (none,
      [⟨"Error loading sound token " ++ toString 3 ++ " custom " ++ "x",
        DebugMessageType.Error⟩])) ∧
    (AssetManager.loadImage mgrOnlyErrored 3 "x" = Except.ok (some ⟨10, true⟩,
      [⟨"Error loading image token " ++ toString 3 ++ " custom " ++ "x",
        DebugMessageType.Error⟩])) := by
  have h := claim_C2_exhaustion_soft_failure mgrOnlyErrored 3 4 "x"
    (fun hx => Option.noConfusion hx)
  refine ⟨h.2.2.1 (fun b hb => by
      have hb2 : b ∈ [bundleErrored] := hb
      rw [List.mem_singleton] at hb2; subst hb2; rfl), ?_⟩
  exact (h.1 (fun b hb => by
      have hb2 : b ∈ [bundleErrored] := hb
      rw [List.mem_singleton] at hb2; subst hb2; rfl)).1

/-- Claim C10 (amended): both sound lookups call `error()` on the bundle
handle without a null check, so they dereference null (`Except.error ()`)
on a registry whose bundle returns a null handle, while the image lookup on
that same registry, which does check the handle for null, completes with a
defined soft failure; and they complete normally whenever every registry
bundle returns a non-null handle — with the amendment that the Debug-Log
reference must also be non-null, since the exhaustion path logs through the
unchecked `m_debug` pointer. -/
theorem claim_C10_null_handle_deref (m : AssetManager) (token character : Nat)
    (custom : String) :
    ((∀ b ∈ m.m_bundleList, (b.loadSound token custom).isSome = true) →
      m.m_debug ≠ none →
      ∃ r, AssetManager.loadSound m token custom = Except.ok r) ∧
    ((∀ b ∈ m.m_bundleList, (b.loadCharSound token character).isSome = true) →
      m.m_debug ≠ none →
      ∃ r, AssetManager.loadCharSound m token character = Except.ok r) ∧
    (AssetManager.loadSound mgrOnlyNull 3 "x" = Except.error ()) ∧
    (AssetManager.loadCharSound mgrOnlyNull 3 4 = Except.error ()) ∧
    (AssetManager.loadImage mgrOnlyNull 3 "x" = Except.ok (none,
      [⟨"Error loading image token " ++ toString 3 ++ " custom " ++ "x",
        DebugMessageType.Error⟩])) := by
  refine ⟨fun h hdbg => ?_, fun h hdbg => ?_, rfl, rfl, rfl⟩
  · obtain ⟨t, ht⟩ := AssetManager.soundGo_isOk_of_all_some _ m.m_bundleList h
    obtain ⟨d, hd⟩ := Option.ne_none_iff_exists'.mp hdbg
    rw [AssetManager.loadSound, ht]
    by_cases hb : AssetManager.sndBad t = true <;>
      simp [hb, AssetManager.debugLog, hd]
  · obtain ⟨t, ht⟩ := AssetManager.soundGo_isOk_of_all_some _ m.m_bundleList h
    obtain ⟨d, hd⟩ := Option.ne_none_iff_exists'.mp hdbg
    rw [AssetManager.loadCharSound, ht]
    by_cases hb : AssetManager.sndBad t = true <;>
      simp [hb, AssetManager.debugLog, hd]

/-- Claim C10 counterexample for the claim as stated: every handle of every
bundle of `mgrErrNoDebug` is non-null, yet the sound lookup still crashes
— at the unchecked `m_debug->log` call on the exhaustion path, because the
Debug-Log reference is null — so non-null handles alone do not make the
sound lookups total. -/
theorem claim_C10_counterexample :
    ((bundleErrored.loadSound 3 "x").isSome = true) ∧
    (mgrErrNoDebug.m_debug = none) ∧
    (AssetManager.loadSound mgrErrNoDebug 3 "x" = Except.error ()) := by
  exact ⟨rfl, rfl, rfl⟩

/-- Claim C10 witness: a registry whose bundles all return non-null sound
handles (one errored, one clean) completes the sound lookup without a
crash. -/
theorem claim_C10_witness :
    ∃ r, AssetManager.loadSound mgrErroredThenGood 9 "y" = Except.ok r := by
  refine (claim_C10_null_handle_deref mgrErroredThenGood 9 5 "y").1 ?_ ?_
  · intro b hb
    have hb2 : b ∈ [bundleErrored, bundleGood] := hb
    rcases List.mem_cons.mp hb2 with h | h
    · subst h; rfl
    · rw [List.mem_singleton] at h; subst h; rfl
  · intro hx
    exact Option.noConfusion hx

/-- Claim C3: `loadBundle(b, p)` first runs init/reload/debug propagation on
the bundle (`prepBundle`), appends the prepared bundle at the END of the
registry iff its `valid` flag is then true, returns that validity, leaves
the collaborator references and the rest of the registry untouched, and the
`priority` argument has no effect at all on the result. -/
theorem claim_C3_loadBundle (dyn : BundleDyn) (m : AssetManager)
    (b : AssetBundle) (p : Int) :
    ((AssetManager.loadBundle dyn m b p).2 = (AssetManager.prepBundle dyn m b).valid) ∧
    ((AssetManager.loadBundle dyn m b p).1.m_bundleList =
      (if (AssetManager.prepBundle dyn m b).valid then
        m.m_bundleList ++ [AssetManager.prepBundle dyn m b] else m.m_bundleList)) ∧
    ((AssetManager.loadBundle dyn m b p).1.m_front = m.m_front) ∧
    ((AssetManager.loadBundle dyn m b p).1.m_debug = m.m_debug) ∧
    ((AssetManager.loadBundle dyn m b p).1.activated = m.activated) ∧
    (∀ q : Int, AssetManager.loadBundle dyn m b p = AssetManager.loadBundle dyn m b q) := by
  refine ⟨?_, ?_, ?_, ?_, ?_, fun q => rfl⟩ <;>
    by_cases hv : (AssetManager.prepBundle dyn m b).valid = true <;>
    simp [AssetManager.loadBundle, hv]

/-- Claim C4: `activate(fe, dbg)` rebinds both collaborator references,
unconditionally reloads every bundle (with the NEW front-end), and leaves
`activated` true iff both arguments are non-null, whatever the prior
state. -/
theorem claim_C4_activate (dyn : BundleDyn) (m : AssetManager) (fe dbg : Option Nat) :
    ((AssetManager.activate dyn m fe dbg).m_front = fe) ∧
    ((AssetManager.activate dyn m fe dbg).m_debug = dbg) ∧
    ((AssetManager.activate dyn m fe dbg).m_bundleList =
      m.m_bundleList.map (fun b => dyn.reloadF b fe)) ∧
    ((AssetManager.activate dyn m fe dbg).activated = true ↔ fe ≠ none ∧ dbg ≠ none) := by
  refine ⟨rfl, rfl, rfl, ?_⟩
  simp [AssetManager.activate, Option.isSome_iff_ne_none]

/-- Claim C6: `unloadAll` returns true exactly on an empty registry (and then
changes nothing); on a non-empty registry it returns false and keeps exactly
the bundles whose `active` flag was set, in their original relative order;
the collaborator references and the flag are untouched. -/
theorem claim_C6_unloadAll (m : AssetManager) :
    ((AssetManager.unloadAll m).2 = m.m_bundleList.isEmpty) ∧
    ((AssetManager.unloadAll m).1.m_bundleList =
      m.m_bundleList.filter (fun b => b.active)) ∧
    ((AssetManager.unloadAll m).1.m_front = m.m_front) ∧
    ((AssetManager.unloadAll m).1.m_debug = m.m_debug) ∧
    ((AssetManager.unloadAll m).1.activated = m.activated) := by
  unfold AssetManager.unloadAll
  split <;> rename_i h
  · simp_all [List.isEmpty_iff]
  · simp_all

/-- Claim C8: `reloadBundles` reloads every registry bundle exactly once
with the current front-end, its counter equals the registry size, and the
`bool` it returns is the counter converted to boolean: true iff the
registry is non-empty. -/
theorem claim_C8_reloadBundles (dyn : BundleDyn) (m : AssetManager) :
    ((AssetManager.reloadBundles dyn m).2 = m.m_bundleList.length) ∧
    ((AssetManager.reloadBundles dyn m).1.m_bundleList =
      m.m_bundleList.map (fun b => dyn.reloadF b m.m_front)) ∧
    ((AssetManager.reloadBundles dyn m).1.m_front = m.m_front) ∧
    ((AssetManager.reloadBundles dyn m).1.m_debug = m.m_debug) ∧
    (AssetManager.reloadBundlesRet dyn m = true ↔ m.m_bundleList.length ≠ 0) := by
  refine ⟨rfl, rfl, rfl, rfl, ?_⟩
  simp [AssetManager.reloadBundlesRet, AssetManager.reloadBundles]

/-- Claim C9: `deleteBundle(b)` removes exactly the registry entries with
the pointer identity of `b` (all other entries survive, in order), and
always returns false, whether or not `b` was present. -/
theorem claim_C9_deleteBundle (m : AssetManager) (b : AssetBundle) :
    ((AssetManager.deleteBundle m b).2 = false) ∧
    ((AssetManager.deleteBundle m b).1.m_bundleList =
      m.m_bundleList.filter (fun x => x.bid != b.bid)) ∧
    (∀ x, x ∈ (AssetManager.deleteBundle m b).1.m_bundleList ↔
      (x ∈ m.m_bundleList ∧ x.bid ≠ b.bid)) ∧
    ((AssetManager.deleteBundle m b).1.m_front = m.m_front) ∧
    ((AssetManager.deleteBundle m b).1.m_debug = m.m_debug) := by
  refine ⟨rfl, rfl, ?_, rfl, rfl⟩
  intro x
  simp [AssetManager.deleteBundle, List.mem_filter]

/-- Claim C7: each enumeration query returns the deduplicated, order-free
union of the per-bundle listings: a name is in the result iff some bundle
in the registry lists it. -/
theorem claim_C7_enumerations (m : AssetManager) (s : String) :
    ((s ∈ AssetManager.listPuyoSkins m) ↔ (∃ b ∈ m.m_bundleList, s ∈ b.listPuyoSkins)) ∧
    ((s ∈ AssetManager.listBackgrounds m) ↔ (∃ b ∈ m.m_bundleList, s ∈ b.listBackgrounds)) ∧
    ((s ∈ AssetManager.listCharacterSkins m) ↔
      (∃ b ∈ m.m_bundleList, s ∈ b.listCharacterSkins)) ∧
    ((s ∈ AssetManager.listSfx m) ↔ (∃ b ∈ m.m_bundleList, s ∈ b.listSfx)) := by
  refine ⟨?_, ?_, ?_, ?_⟩ <;>
    simp [AssetManager.listPuyoSkins, AssetManager.listBackgrounds,
      AssetManager.listCharacterSkins, AssetManager.listSfx,
      AssetManager.mem_foldl_union]

/-- The loop of `AssetManager::clone` before the final `activate`: folding
`loadBundle` over the cloned bundles keeps the collaborator references of
the target manager and appends exactly the prepared clones that report
valid, in order. -/
theorem clone_foldl_spec (dyn : BundleDyn) (l : List AssetBundle) (cur : AssetManager) :
    ((l.foldl (fun c b => (AssetManager.loadBundle dyn c (dyn.cloneF b) 0).1) cur).m_front
      = cur.m_front) ∧
    ((l.foldl (fun c b => (AssetManager.loadBundle dyn c (dyn.cloneF b) 0).1) cur).m_debug
      = cur.m_debug) ∧
    ((l.foldl (fun c b => (AssetManager.loadBundle dyn c (dyn.cloneF b) 0).1) cur).activated
      = cur.activated) ∧
    ((l.foldl (fun c b => (AssetManager.loadBundle dyn c (dyn.cloneF b) 0).1)
        cur).m_bundleList
      = cur.m_bundleList ++
        (l.map (fun b => AssetManager.prepBundle dyn cur (dyn.cloneF b))).filter
          (fun b => b.valid)) := by
  induction l generalizing cur with
  | nil => simp
  | cons a rest ih =>
    simp only [List.foldl_cons, List.map_cons, List.filter_cons]
    obtain ⟨hf, hd, ha⟩ :=
      AssetManager.loadBundle_collaborators dyn cur (dyn.cloneF a) 0
    obtain ⟨ihf, ihd, iha, ihl⟩ := ih ((AssetManager.loadBundle dyn cur (dyn.cloneF a) 0).1)
    have hfun : (fun b => AssetManager.prepBundle dyn
          ((AssetManager.loadBundle dyn cur (dyn.cloneF a) 0).1) (dyn.cloneF b))
        = (fun b => AssetManager.prepBundle dyn cur (dyn.cloneF b)) :=
      funext fun b => AssetManager.prepBundle_congr dyn _ cur _ hf hd
    refine ⟨ihf.trans hf, ihd.trans hd, iha.trans ha, ?_⟩
    rw [ihl, hfun]
    by_cases hv : (AssetManager.prepBundle dyn cur (dyn.cloneF a)).valid = true
    · have hlist : (AssetManager.loadBundle dyn cur (dyn.cloneF a) 0).1.m_bundleList
          = cur.m_bundleList ++ [AssetManager.prepBundle dyn cur (dyn.cloneF a)] := by
        simp [AssetManager.loadBundle, hv]
      rw [hlist, hv]
      simp
    · have hlist : (AssetManager.loadBundle dyn cur (dyn.cloneF a) 0).1.m_bundleList
          = cur.m_bundleList := by
        simp [AssetManager.loadBundle, hv]
      rw [hlist]
      simp [hv]

/-- Claim C5: `clone()` yields a manager that shares the Front-end and
Debug-Log references of the source and whose registry is built by pushing
`clone(b_i)` of every source bundle, in order, through the normal insertion
path of a default-constructed manager (init with the null front-end, reload,
null debug propagation, append iff then valid), after which `activate`
rebinds the source collaborators and reloads every inserted clone; the
source manager is a value never modified by the construction, so the two
registries share no bundle state. -/
theorem claim_C5_clone (dyn : BundleDyn) (m : AssetManager) :
    ((AssetManager.clone dyn m).m_front = m.m_front) ∧
    ((AssetManager.clone dyn m).m_debug = m.m_debug) ∧
    ((AssetManager.clone dyn m).activated = (m.m_front.isSome && m.m_debug.isSome)) ∧
    ((AssetManager.clone dyn m).m_bundleList =
      ((m.m_bundleList.map (fun b =>
          AssetManager.prepBundle dyn AssetManager.mkDefault (dyn.cloneF b))).filter
        (fun b => b.valid)).map (fun b => dyn.reloadF b m.m_front)) := by
  obtain ⟨hf, hd, _, hl⟩ := clone_foldl_spec dyn m.m_bundleList AssetManager.mkDefault
  refine ⟨rfl, rfl, rfl, ?_⟩
  show (m.m_bundleList.foldl
      (fun c b => (AssetManager.loadBundle dyn c (dyn.cloneF b) 0).1)
      AssetManager.mkDefault).m_bundleList.map (fun b => dyn.reloadF b m.m_front) = _
  rw [hl]
  rfl

end ppvs
